import Mathlib

/-!
# TodoApi: the user controller

A shallow embedding of `controllers/userController.go`.

* A handler is a function from the request and the store to an `Outcome`:
  the calls of `c.JSON` in the order they are made, the store afterwards
  and a runtime panic, if one is raised.
* Go `int` is a 64-bit two's-complement integer: arithmetic wraps, division
  truncates and panics on a zero divisor.
* What the handlers call in gin, gorm, bcrypt, jwt-go, strconv and time is
  modelled after the documented behaviour of those libraries; what is not
  fixed by the source (validation tags of the absent `models` package, the
  hash function, the signature, the clock, the environment, SQL `LIKE`) is a
  field of `Env`, and the theorems hold for every `Env`.
-/

namespace TodoApi

/-! ## Go integers and library functions -/

/-- Largest value of Go `int` on a 64-bit platform. -/
def maxInt : Int := 9223372036854775807

/-- Smallest value of Go `int` on a 64-bit platform. -/
def minInt : Int := -9223372036854775808

/-- Two's-complement wrap of a mathematical integer into Go `int`. -/
def wrapInt (x : Int) : Int := (x + 9223372036854775808) % 18446744073709551616 - 9223372036854775808

/-- Go `a + b` on `int`. -/
def addInt (a b : Int) : Int := wrapInt (a + b)

/-- Go `a - b` on `int`. -/
def subInt (a b : Int) : Int := wrapInt (a - b)

/-- Go `a * b` on `int`. -/
def mulInt (a b : Int) : Int := wrapInt (a * b)

/-- Go `a / b` on `int`: truncated division; `none` is the run-time panic
"integer divide by zero". -/
def divInt (a b : Int) : Option Int :=
  if b = 0 then none else some (wrapInt (Int.tdiv a b))

/-- How the digit loop of `strconv.ParseUint` ends: with the value read, with
a syntax error, or with a range error. -/
inductive Scan where
  | value (n : Nat)
  | badDigit
  | outOfRange
deriving DecidableEq, Repr

/-- The loop of `strconv.ParseUint(s, 10, 64)` over the bytes of `s`, left to
right, with `n` the value read so far. At each byte the syntax check comes
first (a byte that is not a decimal digit ends the loop with a syntax
error), then the range check (`n*10 + d` beyond `2^64 - 1` ends it with a
range error); so whichever comes first in the string decides. A character
outside ASCII is a run of bytes none of which is a digit. -/
def parseUintLoop : List Char → Nat → Scan
  | [], n => .value n
  | c :: cs, n =>
    if !c.isDigit then .badDigit
    else if 10 * n + (c.toNat - 48) > 18446744073709551615 then .outOfRange
    else parseUintLoop cs (10 * n + (c.toNat - 48))

/-- Go `strconv.ParseUint(s, 10, 64)`: the empty string is a syntax error; a
range error returns the largest `uint64` along with the error. -/
def ParseUint (cs : List Char) : Scan :=
  if cs.isEmpty then .badDigit else parseUintLoop cs 0

/-- Result value of `strconv.ParseInt(s, 10, 0)`: the leading sign is picked
off, the rest goes to `ParseUint`; a syntax error gives 0, and a value at or
beyond `2^63` (for a range error of `ParseUint`, `2^64 - 1`) gives the
nearest bound of `int64`. -/
def ParseInt (cs : List Char) : Int :=
  if cs.isEmpty then 0
  else
    let neg := cs.head? == some (Char.ofNat 45)
    let rest := if cs.head? == some (Char.ofNat 43) || cs.head? == some (Char.ofNat 45)
      then cs.tail else cs
    match ParseUint rest with
    | .badDigit => 0
    | .outOfRange => if neg then minInt else maxInt
    | .value un =>
      if !neg && un ≥ 9223372036854775808 then maxInt
      else if neg && un > 9223372036854775808 then minInt
      else if neg then -(un : Int) else (un : Int)

/-- The fast path of `strconv.Atoi` for strings shorter than 19 bytes: the
digits are summed without a range check; `none` is the syntax error. -/
def atoiFastLoop : List Char → Nat → Option Nat
  | [], n => some n
  | c :: cs, n =>
    if !c.isDigit then none else atoiFastLoop cs (10 * n + (c.toNat - 48))

/-- Result value of `strconv.Atoi(s)` on a 64-bit platform; the handlers
discard its error. A string of 1 to 18 bytes takes the fast path, any other
goes through `ParseInt`. A syntax error gives 0; a range error gives the
nearest bound of `int`. -/
def Atoi (s : String) : Int :=
  let cs := s.toList
  if 0 < s.utf8ByteSize && s.utf8ByteSize < 19 then
    let rest := if cs.head? == some (Char.ofNat 45) || cs.head? == some (Char.ofNat 43)
      then cs.tail else cs
    if rest.isEmpty then 0
    else
      match atoiFastLoop rest 0 with
      | none => 0
      | some n => if cs.head? == some (Char.ofNat 45) then -(n : Int) else (n : Int)
  else ParseInt cs

/-- An instant, in nanoseconds since the Unix epoch (`time.Time`). The
instant is a mathematical integer: the end of the range Go can represent
(some 292 billion years away) is not part of the model. -/
structure Time where
  ns : Int
deriving DecidableEq, Repr

/-- Go `time.Hour`, a `time.Duration` in nanoseconds. -/
def Hour : Int := 3600 * 1000000000

/-- Go `t.Add(d)`: the instant `t + d`. -/
def Time.Add (t : Time) (d : Int) : Time := ⟨t.ns + d⟩

/-- Go `t.Unix()`: whole seconds elapsed since the Unix epoch. -/
def Time.Unix (t : Time) : Int := t.ns / 1000000000

/-! ## Data model -/

/-- Modelled from the spec: the record type `models.User` of the package
`github.com/muyi2905/models`, which is not among the source files. Spec
section 3 gives its attributes: identifier (assigned by the store), name,
email and password; the handlers read `user.ID`, `user.Email` and
`user.Password`. -/
structure User where
  ID : Nat
  Name : String
  Email : String
  Password : String
deriving DecidableEq, Repr

/-- The token payload `Claims`: `UserId uint` and the `ExpiresAt` field of
`jwt.StandardClaims` (Unix seconds). -/
structure Claims where
  UserId : Nat
  ExpiresAt : Int
deriving DecidableEq, Repr

/-- The anonymous struct `credentials` of `Login`. -/
structure Credentials where
  Email : String
  Password : String
deriving DecidableEq, Repr

/-- Errors returned by gorm. The handlers compare with
`gorm.ErrRecordNotFound`; `other` carries a driver message. -/
inductive DBError where
  | ErrRecordNotFound
  | ErrMissingWhereClause
  | other (msg : String)
deriving DecidableEq, Repr

/-- Go `err.Error()`. -/
def DBError.Error : DBError → String
  | .ErrRecordNotFound => "record not found"
  | .ErrMissingWhereClause => "WHERE conditions required"
  | .other msg => msg

/-- A call of a writing gorm method, with the values handed to it. -/
inductive Stmt where
  | create (u : User)
  | updates (model dest : User)
  | delete (u : User)
deriving DecidableEq, Repr

/-- The store behind `*gorm.DB`: the rows of the users table in the order a
scan yields them, the next identifier the table assigns, whether the table
has a unique index on email (the `models` package is absent, so both
settings are considered), a connection failure that makes every statement
fail, and the writing calls received so far. -/
structure DB where
  rows : List User
  nextID : Nat
  uniqueEmail : Bool
  down : Option String
  calls : List Stmt
deriving DecidableEq, Repr

/-- What gorm does when `First` is handed a struct by value (not a pointer)
and a row is found: it cannot store into the value. -/
inductive ByValue where
  | panics (msg : String)
  | fails (e : DBError)
  | succeeds
deriving DecidableEq, Repr

/-- Everything outside the source file that a handler depends on. -/
structure Env where
  /-- The call `validate.Struct(user)`: the error, if any. The rules are tags
  of `models.User`. -/
  validate : User → Option String
  /-- The `email` rule of the binding validator. -/
  isEmail : String → Bool
  /-- The call `bcrypt.GenerateFromPassword(pw, bcrypt.DefaultCost)`. -/
  bcryptGenerate : String → Except String String
  /-- Whether `bcrypt.CompareHashAndPassword(hash, pw)` returns nil. -/
  bcryptCompare : String → String → Bool
  /-- The call `jwt.NewWithClaims(HS256, claims).SignedString(secret)`. -/
  sign : Claims → String → Except String String
  /-- The package variable `jwtSecret`, read once at start-up. -/
  jwtSecret : String
  /-- The function `os.Getenv`. -/
  Getenv : String → String
  /-- The value of `time.Now()`. -/
  now : Time
  /-- SQL `value LIKE pattern`, as `like pattern value`. -/
  like : String → String → Bool
  /-- Outcome of `db.First(user, id)` with `user` passed by value, when a
  row matches. -/
  byValueFound : ByValue

/-- The body of a response, a `gin.H`: either one key with a string value,
or the list answer of `GetUsers` with its pagination block. -/
inductive Body where
  | H (key value : String)
  | list (users : List User) (current_page page_size total_pages total_items : Int)
deriving DecidableEq, Repr

/-- One call `c.JSON(status, body)`. -/
structure Response where
  status : Nat
  body : Body
deriving DecidableEq, Repr

/-- What a handler did: its `c.JSON` calls in order, the store afterwards,
and the panic that ended it, if any. -/
structure Outcome where
  responses : List Response
  db : DB
  fault : Option String
deriving DecidableEq, Repr

/-- The zero value of `models.User` (`var user models.User`). -/
def zeroUser : User := ⟨0, "", "", ""⟩

/-! ## gorm -/

/-- The row with the smallest primary key among those satisfying `p`
(`First` orders by primary key and takes one row). -/
def firstRow (p : User → Bool) (rows : List User) : Option User :=
  (rows.filter p).foldl
    (fun best u => match best with
      | none => some u
      | some b => if u.ID < b.ID then some u else some b) none

/-- The call `db.Find(&users)`: all rows. -/
def DB.Find (db : DB) : Except DBError (List User) :=
  match db.down with
  | some m => .error (.other m)
  | none => .ok db.rows

/-- The call `db.Where("email = ?", email).First(&user)`. -/
def DB.FirstByEmail (db : DB) (email : String) : Except DBError User :=
  match db.down with
  | some m => .error (.other m)
  | none =>
    match firstRow (fun r => r.Email == email) db.rows with
    | some u => .ok u
    | none => .error .ErrRecordNotFound

/-- The call `db.First(&user, id)`: lookup by primary key. The path
parameter is taken to be the numeral of `id`. -/
def DB.First (db : DB) (id : Nat) : Except DBError User :=
  match db.down with
  | some m => .error (.other m)
  | none =>
    match firstRow (fun r => r.ID == id) db.rows with
    | some u => .ok u
    | none => .error .ErrRecordNotFound

/-- The call `db.First(user, id)` with the destination passed by value: no
row gives `ErrRecordNotFound`; with a row, gorm has nowhere to store it. -/
def DB.FirstByValue (env : Env) (db : DB) (id : Nat) : ByValue :=
  match db.down with
  | some m => .fails (.other m)
  | none =>
    match firstRow (fun r => r.ID == id) db.rows with
    | some _ => env.byValueFound
    | none => .fails .ErrRecordNotFound

/-- The call `db.Create(&user)`: the error, the store afterwards and `user`
with the identifier filled in. -/
def DB.Create (db : DB) (u : User) : Option DBError × DB × User :=
  let db1 : DB := { db with calls := db.calls ++ [Stmt.create u] }
  match db.down with
  | some m => (some (.other m), db1, u)
  | none =>
    let id := if u.ID = 0 then db.nextID else u.ID
    if db.rows.any (fun r => r.ID == id) then
      (some (.other "duplicate key value violates unique constraint"), db1, u)
    else if db.uniqueEmail && db.rows.any (fun r => r.Email == u.Email) then
      (some (.other "duplicate key value violates unique constraint"), db1, u)
    else
      let stored : User := { u with ID := id }
      (none,
       { db1 with rows := db.rows ++ [stored],
                  nextID := if u.ID = 0 then db.nextID + 1 else db.nextID },
       stored)

/-- The call `db.Delete(&user)`: the row is selected by the primary key of
`user`, and without one gorm refuses with `ErrMissingWhereClause`. -/
def DB.Delete (db : DB) (u : User) : Option DBError × DB :=
  let db1 : DB := { db with calls := db.calls ++ [Stmt.delete u] }
  if u.ID = 0 then (some .ErrMissingWhereClause, db1)
  else
    match db.down with
    | some m => (some (.other m), db1)
    | none => (none, { db1 with rows := db.rows.filter (fun r => r.ID != u.ID) })

/-- The conditions `GetUsers` adds to its query: the `LIKE` patterns on name
and on email, when present. -/
structure Conds where
  name : Option String
  email : Option String
deriving DecidableEq, Repr

/-- The rows a query with conditions `cs` selects, in scan order. -/
def matching (env : Env) (cs : Conds) (rows : List User) : List User :=
  rows.filter (fun r =>
    (match cs.name with | some p => env.like p r.Name | none => true) &&
    (match cs.email with | some p => env.like p r.Email | none => true))

/-- The call `query.Count(&total)`; its error is discarded and `total`
keeps its zero value. -/
def DB.Count (env : Env) (db : DB) (cs : Conds) : Int :=
  match db.down with
  | some _ => 0
  | none => ((matching env cs db.rows).length : Int)

/-- The call `query.Offset(offset).Limit(limit).Find(&users)`: gorm writes
`OFFSET` only for a positive offset and `LIMIT` only for a limit that is not
negative. -/
def DB.FindPage (env : Env) (db : DB) (cs : Conds) (offset limit : Int) :
    Except DBError (List User) :=
  match db.down with
  | some m => .error (.other m)
  | none =>
    let sel := matching env cs db.rows
    let skipped := if offset > 0 then sel.drop offset.toNat else sel
    .ok (if limit ≥ 0 then skipped.take limit.toNat else skipped)

/-! ## gin -/

/-- The query string of a request to `GET /users`: each parameter is absent
or carries a value. -/
structure Query where
  page : Option String
  page_size : Option String
  name : Option String
  email : Option String
deriving DecidableEq, Repr

/-- The call `c.DefaultQuery(key, dflt)`. -/
def DefaultQuery (param : Option String) (dflt : String) : String :=
  match param with
  | some v => v
  | none => dflt

/-- The call `c.Query(key)`: the empty string when the key is absent. -/
def QueryValue (param : Option String) : String :=
  match param with
  | some v => v
  | none => ""

/-- The binding rules on `credentials` in `Login`: email `required,email`,
password `required`. The argument is the outcome of decoding the JSON
body. -/
def bindCredentials (env : Env) (body : Except String Credentials) : Except String Credentials :=
  match body with
  | .error e => .error e
  | .ok cred =>
    if cred.Email = "" then .error "Field validation for Email failed on the required tag"
    else if !env.isEmail cred.Email then .error "Field validation for Email failed on the email tag"
    else if cred.Password = "" then .error "Field validation for Password failed on the required tag"
    else .ok cred

/-! ## The handlers -/

/-- The offset `(page - 1) * pageSize` of `GetUsers`. -/
def pageOffset (page pageSize : Int) : Int := mulInt (subInt page 1) pageSize

/-- The expression `(int(total) + pageSize - 1) / pageSize` of `GetUsers`. -/
def totalPages (total pageSize : Int) : Option Int :=
  divInt (subInt (addInt total pageSize) 1) pageSize

/-- The filters of `GetUsers`: `name LIKE %name%` and `email LIKE %email%`,
each added only when the query parameter is not empty. -/
def queryConds (q : Query) : Conds :=
  let name := QueryValue q.name
  let email := QueryValue q.email
  { name := if name ≠ "" then some ("%" ++ name ++ "%") else none,
    email := if email ≠ "" then some ("%" ++ email ++ "%") else none }

/-- Handler `GetUsers` (`GET /users`). -/
def GetUsers (env : Env) (q : Query) (db : DB) : Outcome :=
  match db.Find with
  | .error _ => ⟨[⟨500, .H "error" "Failed to fetch users"⟩], db, none⟩
  | .ok _ =>
    let page := Atoi (DefaultQuery q.page "1")
    let pageSize := Atoi (DefaultQuery q.page_size "10")
    let offset := pageOffset page pageSize
    let cs := queryConds q
    let total := db.Count env cs
    match db.FindPage env cs offset pageSize with
    | .error _ => ⟨[⟨500, .H "error" "Failed to fetch users"⟩], db, none⟩
    | .ok users =>
      match totalPages total pageSize with
      | none => ⟨[], db, some "runtime error: integer divide by zero"⟩
      | some pages => ⟨[⟨200, .list users page pageSize pages total⟩], db, none⟩

/-- Handler `CreateUser` (`POST /users`); `body` is the outcome of
`c.ShouldBindJSON(&user)`. Only the two 400 branches return. -/
def CreateUser (env : Env) (body : Except String User) (db : DB) : Outcome :=
  match body with
  | .error e => ⟨[⟨400, .H "error" e⟩], db, none⟩
  | .ok user =>
    match env.validate user with
    | some e => ⟨[⟨400, .H "error" e⟩], db, none⟩
    | none =>
      let r1 : List Response :=
        match db.FirstByEmail user.Email with
        | .ok _ => [⟨409, .H "error" "user alredy exist "⟩]
        | .error _ => []
      let created := db.Create user
      let r2 : List Response :=
        match created.1 with
        | some _ => [⟨500, .H "error" "failed to create user"⟩]
        | none => []
      ⟨r1 ++ r2 ++ [⟨201, .H "message" "user created sucessful"⟩], created.2.1, none⟩

/-- Handler `GetUserById` (`GET /users/:id`). No branch returns, and the
success body is the string literal `"user"`. -/
def GetUserById (id : Nat) (db : DB) : Outcome :=
  let r1 : List Response :=
    match db.First id with
    | .error e =>
      (if e = .ErrRecordNotFound then [⟨500, .H "error" "user not found"⟩] else []) ++
        [⟨500, .H "error" "failed to fetch user"⟩]
    | .ok _ => []
  ⟨r1 ++ [⟨200, .H "user" "user"⟩], db, none⟩

/-- The part of `DeleteUser` after the lookup: `db.Delete(&user)` on the
zero-valued `user`, then 500 and return, or 200. -/
def deleteAfterLookup (r1 : List Response) (db : DB) : Outcome :=
  let deleted := db.Delete zeroUser
  match deleted.1 with
  | some e => ⟨r1 ++ [⟨500, .H "err" e.Error⟩], deleted.2, none⟩
  | none => ⟨r1 ++ [⟨200, .H "message" "user deleted successfully"⟩], deleted.2, none⟩

/-- Handler `DeleteUser` (`DELETE /users/:id`). The lookup passes `user` by
value; its `else` branch runs when the error is nil and calls `err.Error()`
on it. -/
def DeleteUser (env : Env) (id : Nat) (db : DB) : Outcome :=
  match db.FirstByValue env id with
  | .panics msg => ⟨[], db, some msg⟩
  | .fails e =>
    deleteAfterLookup (if e = .ErrRecordNotFound then [⟨404, .H "err" "user not found"⟩] else []) db
  | .succeeds =>
    ⟨[], db, some "runtime error: invalid memory address or nil pointer dereference"⟩

/-- Handler `Signup` (`POST /signup`); `body` is the outcome of
`c.ShouldBindJSON(&user)`. A signing error is answered with 500 and then
with 200 and the empty token. -/
def Signup (env : Env) (body : Except String User) (db : DB) : Outcome :=
  match body with
  | .error e => ⟨[⟨400, .H "err" e⟩], db, none⟩
  | .ok user =>
    match env.validate user with
    | some e => ⟨[⟨400, .H "err" e⟩], db, none⟩
    | none =>
      match env.bcryptGenerate user.Password with
      | .error _ => ⟨[⟨500, .H "err" "failed to hash password"⟩], db, none⟩
      | .ok hashedPassword =>
        let created := db.Create { user with Password := hashedPassword }
        match created.1 with
        | some e => ⟨[⟨500, .H "err" e.Error⟩], created.2.1, none⟩
        | none =>
          let claims : Claims :=
            { UserId := created.2.2.ID,
              ExpiresAt := (env.now.Add (Hour * 24)).Unix }
          match env.sign claims env.jwtSecret with
          | .error e =>
            ⟨[⟨500, .H "error" e⟩, ⟨200, .H "token" ""⟩], created.2.1, none⟩
          | .ok tokenString => ⟨[⟨200, .H "token" tokenString⟩], created.2.1, none⟩

/-- The function `generateJWTToken`. -/
def generateJWTToken (env : Env) (userID : Nat) : Except String String :=
  let claims : Claims :=
    { UserId := userID,
      ExpiresAt := (env.now.Add (Hour * 24)).Unix }
  env.sign claims (env.Getenv "JWT_SECRET")

/-- Handler `Login` (`POST /login`); `body` is the outcome of decoding the
JSON body into `credentials`. -/
def Login (env : Env) (body : Except String Credentials) (db : DB) : Outcome :=
  match bindCredentials env body with
  | .error e => ⟨[⟨400, .H "error" e⟩], db, none⟩
  | .ok credentials =>
    match db.FirstByEmail credentials.Email with
    | .error e =>
      if e = .ErrRecordNotFound then ⟨[⟨401, .H "error" "Invalid email or password"⟩], db, none⟩
      else ⟨[⟨500, .H "error" "Failed to retrieve user"⟩], db, none⟩
    | .ok user =>
      if !env.bcryptCompare user.Password credentials.Password then
        ⟨[⟨401, .H "error" "Invalid email or password"⟩], db, none⟩
      else
        match generateJWTToken env user.ID with
        | .error _ => ⟨[⟨500, .H "error" "Failed to generate token"⟩], db, none⟩
        | .ok token => ⟨[⟨200, .H "token" token⟩], db, none⟩

/-! ## A concrete environment and stores, for evaluation -/

/-- An environment with simple stand-ins: every field of a user is required,
an email contains an at sign, the hash prepends a marker, the token is a
fixed string per user identifier. -/
def demoEnv : Env :=
  { validate := fun u =>
      if u.Name = "" || u.Email = "" || u.Password = "" then some "validation failed" else none,
    isEmail := fun s => s.toList.contains (Char.ofNat 64),
    bcryptGenerate := fun pw => .ok ("$2a$10$" ++ pw),
    bcryptCompare := fun h pw => h == "$2a$10$" ++ pw,
    sign := fun c secret => if secret = "" then .error "key is invalid" else
      .ok (if c.UserId = 1 then "token-of-1" else "token"),
    jwtSecret := "s3cret",
    Getenv := fun k => if k = "JWT_SECRET" then "s3cret" else "",
    now := ⟨1700000000123456789⟩,
    like := fun p v => p == "%" ++ v ++ "%" || p == "%%",
    byValueFound := .panics "reflect: reflect.Value.Set using unaddressable value" }

/-- A user named Ann. -/
def ann : User := ⟨1, "ann", "ann@example.com", "$2a$10$hunter2"⟩

/-- A store holding Ann alone. -/
def dbAnn : DB := ⟨[ann], 2, true, none, []⟩

/-- The same store without a unique index on email. -/
def dbAnnLoose : DB := ⟨[ann], 2, false, none, []⟩

/-- An empty store. -/
def dbEmpty : DB := ⟨[], 1, true, none, []⟩

/-- A create request that reuses the email of Ann. -/
def dupRequest : User := ⟨0, "bob", "ann@example.com", "pw"⟩

/-- A store of 25 users with identifiers 1 to 25. -/
def db25 : DB :=
  ⟨(List.range 25).map (fun i => ⟨i + 1, "n", "e", "h"⟩), 26, false, none, []⟩

/-! ## Lemmas on the library model -/

theorem wrapInt_of_range (x : Int) (hlo : minInt ≤ x) (hhi : x ≤ maxInt) : wrapInt x = x := by
  unfold wrapInt
  unfold minInt at hlo
  unfold maxInt at hhi
  omega

theorem wrapInt_sub_wrapInt (a b : Int) : wrapInt (wrapInt a - b) = wrapInt (a - b) := by
  unfold wrapInt
  omega

theorem foldl_best_some (l : List User) (b : User) :
    ∃ c, l.foldl
      (fun best u => match best with
        | none => some u
        | some b => if u.ID < b.ID then some u else some b) (some b) = some c := by
  induction l generalizing b with
  | nil => exact ⟨b, rfl⟩
  | cons x xs ih =>
    simp only [List.foldl_cons]
    by_cases h : x.ID < b.ID
    · simp only [h, if_true]
      exact ih x
    · simp only [h, if_false]
      exact ih b

theorem firstRow_none (p : User → Bool) (rows : List User)
    (h : ∀ r ∈ rows, p r = false) : firstRow p rows = none := by
  have hf : rows.filter p = [] := by
    rw [List.filter_eq_nil_iff]
    intro r hr
    simp [h r hr]
  simp [firstRow, hf]

theorem firstRow_some (p : User → Bool) (rows : List User) (r : User)
    (hr : r ∈ rows) (hp : p r = true) : ∃ u, firstRow p rows = some u := by
  have hmem : r ∈ rows.filter p := List.mem_filter.mpr ⟨hr, hp⟩
  unfold firstRow
  cases hl : rows.filter p with
  | nil => rw [hl] at hmem; cases hmem
  | cons x xs =>
    simp only [List.foldl_cons]
    exact foldl_best_some xs x

theorem unix_add_day (t : Time) : (t.Add (Hour * 24)).Unix = t.Unix + 86400 := by
  unfold Time.Add Time.Unix Hour
  simp only []
  omega

theorem FirstByEmail_absent (db : DB) (email : String) (hup : db.down = none)
    (hno : ∀ r ∈ db.rows, r.Email ≠ email) :
    db.FirstByEmail email = .error .ErrRecordNotFound := by
  have h := firstRow_none (fun r => r.Email == email) db.rows (by
    intro r hr
    simpa using hno r hr)
  simp [DB.FirstByEmail, hup, h]

theorem FirstByEmail_present (db : DB) (email : String) (r : User) (hup : db.down = none)
    (hr : r ∈ db.rows) (hemail : r.Email = email) :
    ∃ u, db.FirstByEmail email = .ok u := by
  obtain ⟨u, hu⟩ := firstRow_some (fun r => r.Email == email) db.rows r hr (by simpa using hemail)
  exact ⟨u, by simp [DB.FirstByEmail, hup, hu]⟩

/-- C3: a well-formed login whose email matches no record and one whose
email matches a record with a password that fails the hash comparison get
the same observable result: exactly one response, 401 with the message
"Invalid email or password", no token, no panic, the store untouched. -/
theorem Login_unknown_email_same_as_wrong_password (env : Env)
    (body : Except String Credentials) (cred : Credentials) (db₁ db₂ : DB) (u : User)
    (hwf : bindCredentials env body = .ok cred)
    (hup : db₁.down = none)
    (hno : ∀ r ∈ db₁.rows, r.Email ≠ cred.Email)
    (hyes : db₂.FirstByEmail cred.Email = .ok u)
    (hbad : env.bcryptCompare u.Password cred.Password = false) :
    Login env body db₁ = ⟨[⟨401, .H "error" "Invalid email or password"⟩], db₁, none⟩ ∧
    Login env body db₂ = ⟨[⟨401, .H "error" "Invalid email or password"⟩], db₂, none⟩ ∧
    (Login env body db₁).responses = (Login env body db₂).responses := by
  have h₁ : Login env body db₁ = ⟨[⟨401, .H "error" "Invalid email or password"⟩], db₁, none⟩ := by
    simp [Login, hwf, FirstByEmail_absent db₁ cred.Email hup hno]
  have h₂ : Login env body db₂ = ⟨[⟨401, .H "error" "Invalid email or password"⟩], db₂, none⟩ := by
    simp [Login, hwf, hyes, hbad]
  exact ⟨h₁, h₂, by rw [h₁, h₂]⟩

theorem Login_unknown_email_same_as_wrong_password_witness :
    Login demoEnv (.ok ⟨"bob@example.com", "hunter2"⟩) dbEmpty
        = ⟨[⟨401, .H "error" "Invalid email or password"⟩], dbEmpty, none⟩ ∧
    Login demoEnv (.ok ⟨"bob@example.com", "hunter2"⟩) { dbAnn with rows := [⟨1, "bob", "bob@example.com", "$2a$10$other"⟩] }
        = ⟨[⟨401, .H "error" "Invalid email or password"⟩],
            { dbAnn with rows := [⟨1, "bob", "bob@example.com", "$2a$10$other"⟩] }, none⟩ ∧
    (Login demoEnv (.ok ⟨"bob@example.com", "hunter2"⟩) dbEmpty).responses
        = (Login demoEnv (.ok ⟨"bob@example.com", "hunter2"⟩)
            { dbAnn with rows := [⟨1, "bob", "bob@example.com", "$2a$10$other"⟩] }).responses :=
  Login_unknown_email_same_as_wrong_password demoEnv (.ok ⟨"bob@example.com", "hunter2"⟩)
    ⟨"bob@example.com", "hunter2"⟩ dbEmpty
    { dbAnn with rows := [⟨1, "bob", "bob@example.com", "$2a$10$other"⟩] }
    ⟨1, "bob", "bob@example.com", "$2a$10$other"⟩
    rfl (by decide) (by decide) rfl (by decide)

/-- C4: for every user identifier `id` and issuance instant with Unix
seconds `t`, `generateJWTToken` signs the claims `UserId = id`,
`ExpiresAt = t + 86400`; a successful Login answers 200 with the token
signed for the identifier of the record found, and a successful Signup
answers 200 with the token signed for the identifier the store assigned,
both expiring at `t + 86400`. -/
theorem token_claims_expire_after_24h (env : Env) (id : Nat)
    (lbody : Except String Credentials) (cred : Credentials) (ldb : DB) (u : User)
    (ltok : String) (suser : User) (sdb : DB) (hash stok : String)
    (hbind : bindCredentials env lbody = .ok cred)
    (hfound : ldb.FirstByEmail cred.Email = .ok u)
    (hpw : env.bcryptCompare u.Password cred.Password = true)
    (hlsign : env.sign ⟨u.ID, env.now.Unix + 86400⟩ (env.Getenv "JWT_SECRET") = .ok ltok)
    (hvalid : env.validate suser = none)
    (hhash : env.bcryptGenerate suser.Password = .ok hash)
    (hcreate : (sdb.Create { suser with Password := hash }).1 = none)
    (hssign : env.sign ⟨(sdb.Create { suser with Password := hash }).2.2.ID,
        env.now.Unix + 86400⟩ env.jwtSecret = .ok stok) :
    generateJWTToken env id = env.sign ⟨id, env.now.Unix + 86400⟩ (env.Getenv "JWT_SECRET") ∧
    Login env lbody ldb = ⟨[⟨200, .H "token" ltok⟩], ldb, none⟩ ∧
    Signup env (.ok suser) sdb
      = ⟨[⟨200, .H "token" stok⟩], (sdb.Create { suser with Password := hash }).2.1, none⟩ := by
  refine ⟨?_, ?_, ?_⟩
  · simp [generateJWTToken, unix_add_day]
  · simp [Login, hbind, hfound, hpw, generateJWTToken, unix_add_day, hlsign]
  · simp [Signup, hvalid, hhash, hcreate, unix_add_day, hssign]

theorem token_claims_expire_after_24h_witness :
    generateJWTToken demoEnv 7 = demoEnv.sign ⟨7, 1700000000 + 86400⟩ "s3cret" ∧
    Login demoEnv (.ok ⟨"ann@example.com", "hunter2"⟩) dbAnn
      = ⟨[⟨200, .H "token" "token-of-1"⟩], dbAnn, none⟩ ∧
    Signup demoEnv (.ok ⟨0, "bob", "bob@example.com", "pw"⟩) dbAnn
      = ⟨[⟨200, .H "token" "token"⟩],
          (dbAnn.Create ⟨0, "bob", "bob@example.com", "$2a$10$pw"⟩).2.1, none⟩ :=
  token_claims_expire_after_24h demoEnv 7 (.ok ⟨"ann@example.com", "hunter2"⟩)
    ⟨"ann@example.com", "hunter2"⟩ dbAnn ann "token-of-1"
    ⟨0, "bob", "bob@example.com", "pw"⟩ dbAnn "$2a$10$pw" "token"
    rfl rfl (by decide) rfl (by decide) rfl (by decide) rfl

/-! ## CreateUser -/

theorem Create_calls (db : DB) (u : User) :
    (db.Create u).2.1.calls = db.calls ++ [Stmt.create u] := by
  unfold DB.Create
  cases db.down with
  | some m => rfl
  | none =>
    simp only []
    repeat' split
    all_goals rfl

/-- C1, as the code behaves: for a valid create request whose email is
already held by a record of a reachable store, CreateUser writes 409 and
goes on: it hands the record to the create call of the store, writes 500
when that call fails, and always ends with 201. -/
theorem CreateUser_duplicate_email_goes_on (env : Env) (u r : User) (db : DB)
    (hvalid : env.validate u = none) (hup : db.down = none)
    (hr : r ∈ db.rows) (hemail : r.Email = u.Email) :
    (CreateUser env (.ok u) db).responses
      = [⟨409, .H "error" "user alredy exist "⟩] ++
        (if (db.Create u).1.isSome then [⟨500, .H "error" "failed to create user"⟩] else []) ++
        [⟨201, .H "message" "user created sucessful"⟩] ∧
    (CreateUser env (.ok u) db).db = (db.Create u).2.1 ∧
    (CreateUser env (.ok u) db).db.calls = db.calls ++ [Stmt.create u] := by
  obtain ⟨found, hfound⟩ := FirstByEmail_present db u.Email r hup hr hemail
  refine ⟨?_, ?_, ?_⟩
  · cases hc : (db.Create u).1 <;> simp [CreateUser, hvalid, hfound, hc]
  · simp [CreateUser, hvalid]
  · simp [CreateUser, hvalid, Create_calls]

theorem CreateUser_duplicate_email_goes_on_witness :
    ((CreateUser demoEnv (.ok dupRequest) dbAnnLoose).responses
      = [⟨409, .H "error" "user alredy exist "⟩] ++
        (if (dbAnnLoose.Create dupRequest).1.isSome
          then [⟨500, .H "error" "failed to create user"⟩] else []) ++
        [⟨201, .H "message" "user created sucessful"⟩] ∧
    (CreateUser demoEnv (.ok dupRequest) dbAnnLoose).db = (dbAnnLoose.Create dupRequest).2.1 ∧
    (CreateUser demoEnv (.ok dupRequest) dbAnnLoose).db.calls
      = dbAnnLoose.calls ++ [Stmt.create dupRequest]) ∧
    (CreateUser demoEnv (.ok dupRequest) dbAnnLoose).db.rows
      = [ann, ⟨2, "bob", "ann@example.com", "pw"⟩] ∧
    (CreateUser demoEnv (.ok dupRequest) dbAnn).responses
      = [⟨409, .H "error" "user alredy exist "⟩, ⟨500, .H "error" "failed to create user"⟩,
          ⟨201, .H "message" "user created sucessful"⟩] :=
  ⟨CreateUser_duplicate_email_goes_on demoEnv dupRequest ann dbAnnLoose
    (by decide) (by decide) (by decide) (by decide), by decide, by decide⟩

/-- C2, as the code behaves: for a valid request with plaintext password
`p`, CreateUser hands the record to the create call of the store as it was
bound, so its Password field is `p` itself; Signup hands over the record
with the Password field replaced by the bcrypt hash of `p`. -/
theorem CreateUser_hands_over_plaintext_password (env : Env) (u : User) (db : DB) (hash : String)
    (hvalid : env.validate u = none)
    (hhash : env.bcryptGenerate u.Password = .ok hash) :
    (CreateUser env (.ok u) db).db.calls = db.calls ++ [Stmt.create u] ∧
    (Signup env (.ok u) db).db.calls
      = db.calls ++ [Stmt.create { u with Password := hash }] := by
  constructor
  · simp [CreateUser, hvalid, Create_calls]
  · cases hc : (db.Create { u with Password := hash }).1 with
    | some e => simp [Signup, hvalid, hhash, hc, Create_calls]
    | none =>
      cases hs : env.sign ⟨(db.Create { u with Password := hash }).2.2.ID,
          (env.now.Add (Hour * 24)).Unix⟩ env.jwtSecret <;>
        simp [Signup, hvalid, hhash, hc, hs, Create_calls]

theorem CreateUser_hands_over_plaintext_password_witness :
    (CreateUser demoEnv (.ok ⟨0, "bob", "bob@example.com", "secret"⟩) dbAnn).db.calls
      = dbAnn.calls ++ [Stmt.create ⟨0, "bob", "bob@example.com", "secret"⟩] ∧
    (Signup demoEnv (.ok ⟨0, "bob", "bob@example.com", "secret"⟩) dbAnn).db.calls
      = dbAnn.calls ++ [Stmt.create ⟨0, "bob", "bob@example.com", "$2a$10$secret"⟩] :=
  CreateUser_hands_over_plaintext_password demoEnv ⟨0, "bob", "bob@example.com", "secret"⟩
    dbAnn "$2a$10$secret" (by decide) rfl

/-! ## GetUserById -/

/-- C7, as the code behaves: whatever user CreateUser was given and whatever
identifier is then looked up, the one 200 response of GetUserById has the
body with key "user" and the string "user" as value; it carries no field
of the record. -/
theorem GetUserById_after_create_body_is_literal (env : Env) (body : Except String User) (db : DB)
    (id : Nat) :
    (GetUserById id (CreateUser env body db).db).responses.filter (fun r => r.status == 200)
      = [⟨200, .H "user" "user"⟩] := by
  unfold GetUserById
  cases h : (CreateUser env body db).db.First id with
  | ok u => simp
  | error e =>
    by_cases he : e = .ErrRecordNotFound <;> simp [he]

/-! ## UpdateUser and DeleteUser -/

theorem FirstByValue_present (env : Env) (db : DB) (id : Nat) (r : User) (hup : db.down = none)
    (hr : r ∈ db.rows) (hid : r.ID = id) :
    db.FirstByValue env id = env.byValueFound := by
  obtain ⟨u, hu⟩ := firstRow_some (fun r => r.ID == id) db.rows r hr (by simpa using hid)
  simp [DB.FirstByValue, hup, hu]

theorem deleteAfterLookup_eq (r1 : List Response) (db : DB) :
    deleteAfterLookup r1 db
      = ⟨r1 ++ [⟨500, .H "err" "WHERE conditions required"⟩],
          { db with calls := db.calls ++ [Stmt.delete zeroUser] }, none⟩ := by
  simp [deleteAfterLookup, DB.Delete, zeroUser, DBError.Error]

/-- C9, as the code behaves: for a reachable store and an identifier that
matches a record, DeleteUser never writes 200 and leaves every row in
place, that record included: either it ends in a panic (inside the lookup
by value, or at `err.Error()` on the nil error) with no response written,
or the lookup failed and the delete call on the zero-valued user is refused
and answered with 500. -/
theorem DeleteUser_existing_id_removes_nothing (env : Env) (id : Nat) (r : User) (db : DB)
    (hup : db.down = none) (hr : r ∈ db.rows) (hid : r.ID = id) :
    (DeleteUser env id db).db.rows = db.rows ∧
    r ∈ (DeleteUser env id db).db.rows ∧
    (DeleteUser env id db).responses.filter (fun x => x.status == 200) = [] ∧
    (((DeleteUser env id db).fault ≠ none ∧ (DeleteUser env id db).responses = []) ∨
     (DeleteUser env id db).responses.getLast?
        = some ⟨500, .H "err" "WHERE conditions required"⟩) := by
  have hl := FirstByValue_present env db id r hup hr hid
  cases hb : env.byValueFound with
  | panics m => simp [DeleteUser, hl, hb, hr]
  | succeeds => simp [DeleteUser, hl, hb, hr]
  | fails e =>
    by_cases he : e = .ErrRecordNotFound <;>
      simp [DeleteUser, hl, hb, hr, deleteAfterLookup_eq, he]

theorem DeleteUser_existing_id_removes_nothing_witness :
    ((DeleteUser demoEnv 1 dbAnn).db.rows = dbAnn.rows ∧
    ann ∈ (DeleteUser demoEnv 1 dbAnn).db.rows ∧
    (DeleteUser demoEnv 1 dbAnn).responses.filter (fun x => x.status == 200) = [] ∧
    (((DeleteUser demoEnv 1 dbAnn).fault ≠ none ∧ (DeleteUser demoEnv 1 dbAnn).responses = []) ∨
     (DeleteUser demoEnv 1 dbAnn).responses.getLast?
        = some ⟨500, .H "err" "WHERE conditions required"⟩)) ∧
    DeleteUser { demoEnv with byValueFound := .succeeds } 1 dbAnn
      = ⟨[], dbAnn, some "runtime error: invalid memory address or nil pointer dereference"⟩ :=
  ⟨DeleteUser_existing_id_removes_nothing demoEnv 1 ann dbAnn (by decide) (by decide) (by decide),
    by decide⟩

/-! ## GetUsers -/

theorem pageOffset_in_range (page pageSize : Int) (hpage : 1 ≤ page) (hsize : 1 ≤ pageSize)
    (hoff : (page - 1) * pageSize ≤ maxInt) :
    pageOffset page pageSize = (page - 1) * pageSize := by
  have h0 : 0 ≤ page - 1 := by omega
  have hle : page - 1 ≤ (page - 1) * pageSize := by nlinarith
  have hnn : 0 ≤ (page - 1) * pageSize := by nlinarith
  have hmin : minInt ≤ 0 := by decide
  unfold pageOffset mulInt subInt
  rw [wrapInt_of_range (page - 1) (by omega) (by omega)]
  exact wrapInt_of_range _ (by omega) hoff

theorem totalPages_in_range (total pageSize : Int) (htotal : 0 ≤ total) (hsize : 1 ≤ pageSize)
    (hsum : total + pageSize - 1 ≤ maxInt) :
    totalPages total pageSize = some ((total + pageSize - 1) / pageSize) := by
  have hne : pageSize ≠ 0 := by omega
  have hmin : minInt ≤ 0 := by decide
  have hnum : 0 ≤ total + pageSize - 1 := by omega
  have hq0 : 0 ≤ (total + pageSize - 1) / pageSize := Int.ediv_nonneg hnum (by omega)
  have hq1 : (total + pageSize - 1) / pageSize ≤ total + pageSize - 1 :=
    Int.ediv_le_self pageSize hnum
  unfold totalPages divInt subInt addInt
  rw [if_neg hne, wrapInt_sub_wrapInt, wrapInt_of_range _ (by omega) hsum,
    Int.tdiv_eq_ediv hnum (by omega), wrapInt_of_range _ (by omega) (by omega)]

theorem ceil_div_eq (total pageSize : Int) (hsize : 1 ≤ pageSize) :
    ⌈((total : ℚ) / (pageSize : ℚ))⌉ = (total + pageSize - 1) / pageSize := by
  have hpos : (0 : ℚ) < (pageSize : ℚ) := by exact_mod_cast (by omega : (0 : Int) < pageSize)
  have hlo : (total + pageSize - 1) / pageSize * pageSize ≤ total + pageSize - 1 :=
    Int.ediv_mul_le _ (by omega)
  have hhi : total + pageSize - 1 < ((total + pageSize - 1) / pageSize + 1) * pageSize :=
    Int.lt_ediv_add_one_mul_self _ (by omega)
  generalize (total + pageSize - 1) / pageSize = k at hlo hhi
  rw [Int.ceil_eq_iff]
  constructor
  · rw [lt_div_iff₀ hpos]
    have h : (k - 1) * pageSize < total := by nlinarith
    exact_mod_cast h
  · rw [div_le_iff₀ hpos]
    have h : total ≤ k * pageSize := by nlinarith
    exact_mod_cast h

/-- C5, amended with the range of Go `int`: for page >= 1, page_size >= 1
and the n records matching the filters in a reachable store, provided
(page-1)*page_size and n + page_size - 1 do not exceed 2^63 - 1, GetUsers
writes one response, 200, whose users are the records at 1-indexed
positions (page-1)*page_size+1 through min(page*page_size, n), with
total_items = n and total_pages = ceil(n / page_size). -/
theorem GetUsers_page_window (env : Env) (q : Query) (db : DB) (page pageSize : Int)
    (hup : db.down = none)
    (hp : Atoi (DefaultQuery q.page "1") = page)
    (hs : Atoi (DefaultQuery q.page_size "10") = pageSize)
    (hpage : 1 ≤ page) (hsize : 1 ≤ pageSize)
    (hoff : (page - 1) * pageSize ≤ maxInt)
    (hsum : ((matching env (queryConds q) db.rows).length : Int) + pageSize - 1 ≤ maxInt) :
    ∃ users : List User,
      GetUsers env q db
        = ⟨[⟨200, .list users page pageSize
              ⌈(((matching env (queryConds q) db.rows).length : ℚ) / (pageSize : ℚ))⌉
              ((matching env (queryConds q) db.rows).length : Int)⟩], db, none⟩ ∧
      (∀ i : Nat, users[i]? =
        if (i : Int) < pageSize
        then (matching env (queryConds q) db.rows)[((page - 1) * pageSize).toNat + i]?
        else none) ∧
      users.length
        = min (page * pageSize).toNat (matching env (queryConds q) db.rows).length
          - ((page - 1) * pageSize).toNat := by
  have hnn : 0 ≤ (page - 1) * pageSize := by nlinarith
  have hpo := pageOffset_in_range page pageSize hpage hsize hoff
  have htp := totalPages_in_range ((matching env (queryConds q) db.rows).length : Int) pageSize
    (by omega) hsize hsum
  have hceil := ceil_div_eq ((matching env (queryConds q) db.rows).length : Int) pageSize hsize
  have hcast : (((matching env (queryConds q) db.rows).length : Int) : ℚ)
      = ((matching env (queryConds q) db.rows).length : ℚ) := by norm_cast
  rw [hcast] at hceil
  refine ⟨((matching env (queryConds q) db.rows).drop ((page - 1) * pageSize).toNat).take
    pageSize.toNat, ?_, ?_, ?_⟩
  · have hdrop : (if (page - 1) * pageSize > 0
        then (matching env (queryConds q) db.rows).drop ((page - 1) * pageSize).toNat
        else matching env (queryConds q) db.rows)
        = (matching env (queryConds q) db.rows).drop ((page - 1) * pageSize).toNat := by
      by_cases h0 : (page - 1) * pageSize > 0
      · simp [h0]
      · have hz : (page - 1) * pageSize = 0 := by omega
        simp [hz]
    have hlim : pageSize ≥ 0 := by omega
    simp only [GetUsers, DB.Find, hup, hp, hs, hpo, DB.Count, DB.FindPage, htp, hdrop, hlim,
      if_true, hceil]
  · intro i
    rw [List.getElem?_take, List.getElem?_drop]
    by_cases hi : (i : Int) < pageSize
    · have hi2 : i < pageSize.toNat := by omega
      simp [hi, hi2]
    · have hi2 : ¬ i < pageSize.toNat := by omega
      simp [hi, hi2]
  · have hmul : page * pageSize = (page - 1) * pageSize + pageSize := by ring
    rw [List.length_take, List.length_drop, hmul]
    generalize (page - 1) * pageSize = a at hnn
    omega

theorem GetUsers_page_window_witness :
    (∃ users : List User,
      GetUsers demoEnv ⟨some "2", some "10", none, none⟩ db25
        = ⟨[⟨200, .list users 2 10
              ⌈(((matching demoEnv (queryConds ⟨some "2", some "10", none, none⟩) db25.rows).length : ℚ)
                / ((10 : Int) : ℚ))⌉
              ((matching demoEnv (queryConds ⟨some "2", some "10", none, none⟩) db25.rows).length
                : Int)⟩], db25, none⟩ ∧
      (∀ i : Nat, users[i]? =
        if (i : Int) < 10
        then (matching demoEnv (queryConds ⟨some "2", some "10", none, none⟩)
          db25.rows)[((2 - 1) * 10 : Int).toNat + i]?
        else none) ∧
      users.length
        = min ((2 : Int) * 10).toNat
            (matching demoEnv (queryConds ⟨some "2", some "10", none, none⟩) db25.rows).length
          - ((2 - 1) * 10 : Int).toNat) ∧
    GetUsers demoEnv ⟨some "2", some "10", none, none⟩ db25
      = ⟨[⟨200, .list ((List.range 10).map (fun i => ⟨i + 11, "n", "e", "h"⟩)) 2 10 3 25⟩],
          db25, none⟩ :=
  ⟨GetUsers_page_window demoEnv ⟨some "2", some "10", none, none⟩ db25 2 10
    (by decide) (by decide) (by decide) (by decide) (by decide) (by decide) (by decide),
   by decide⟩

/-- C5 as stated fails: with page = 1 and page_size = 2^63 - 1 on 25
matching records the sum 25 + page_size - 1 wraps around, and GetUsers
reports total_pages = 0, although ceil(25 / page_size) = 1. -/
theorem GetUsers_total_pages_wraps :
    (1 : Int) ≤ Atoi "1" ∧ (1 : Int) ≤ Atoi "9223372036854775807" ∧
    (matching demoEnv (queryConds ⟨some "1", some "9223372036854775807", none, none⟩)
      db25.rows).length = 25 ∧
    GetUsers demoEnv ⟨some "1", some "9223372036854775807", none, none⟩ db25
      = ⟨[⟨200, .list db25.rows 1 9223372036854775807 0 25⟩], db25, none⟩ ∧
    ⌈((25 : ℚ) / ((9223372036854775807 : Int) : ℚ))⌉ = 1 := by
  refine ⟨by decide, by decide, by decide, by decide, ?_⟩
  rw [Int.ceil_eq_iff]
  norm_num

theorem Atoi_range_error_before_syntax_error :
    Atoi "99999999999999999999999x" = maxInt ∧
    Atoi "-99999999999999999999999x" = minInt ∧
    Atoi "18446744073709551616x" = maxInt ∧
    Atoi "18446744073709551615x" = 0 ∧
    Atoi "x99999999999999999999999" = 0 ∧
    Atoi "abc" = 0 ∧ Atoi "" = 0 ∧ Atoi "0" = 0 ∧ Atoi "-7" = -7 ∧
    GetUsers demoEnv ⟨none, some "99999999999999999999999x", none, none⟩ dbAnn
      = ⟨[⟨200, .list [ann] 1 9223372036854775807 1 1⟩], dbAnn, none⟩ := by
  decide

/-- C10, as the code behaves: whenever `strconv.Atoi` gives 0 for the
page_size parameter (the value 0, or a text in which a syntax error is met
before any range error, such as abc), GetUsers on a reachable store panics
with an integer division by zero before any response is written; and
page = 0 with the default page_size gives the offset -10. -/
theorem GetUsers_zero_page_size_panics (env : Env) (q : Query) (db : DB)
    (hup : db.down = none)
    (hs : Atoi (DefaultQuery q.page_size "10") = 0) :
    GetUsers env q db = ⟨[], db, some "runtime error: integer divide by zero"⟩ ∧
    totalPages (db.Count env (queryConds q)) (Atoi (DefaultQuery q.page_size "10")) = none ∧
    pageOffset (Atoi (DefaultQuery (some "0") "1")) (Atoi (DefaultQuery none "10")) = -10 := by
  refine ⟨?_, ?_, by decide⟩
  · simp [GetUsers, DB.Find, hup, hs, DB.FindPage, totalPages, divInt]
  · simp [hs, totalPages, divInt]

theorem GetUsers_zero_page_size_panics_witness :
    (GetUsers demoEnv ⟨none, some "0", none, none⟩ dbAnn
      = ⟨[], dbAnn, some "runtime error: integer divide by zero"⟩ ∧
    totalPages (dbAnn.Count demoEnv (queryConds ⟨none, some "0", none, none⟩))
      (Atoi (DefaultQuery (some "0") "10")) = none ∧
    pageOffset (Atoi (DefaultQuery (some "0") "1")) (Atoi (DefaultQuery none "10")) = -10) ∧
    GetUsers demoEnv ⟨none, some "abc", none, none⟩ dbAnn
      = ⟨[], dbAnn, some "runtime error: integer divide by zero"⟩ :=
  ⟨GetUsers_zero_page_size_panics demoEnv ⟨none, some "0", none, none⟩ dbAnn
    (by decide) (by decide), by decide⟩

end TodoApi
